import Mathlib

/-!
Verification development for the runner-game repository
(`src/components/RunnerGame.tsx` plus the page/auth glue).

The simulation engine's mutable `stateRef` record becomes `GameState`,
the per-frame `loop` callback becomes the pure `step` function (the two
`Math.random()` draws of a tick and the per-explosion velocity draws are
passed in through an `Env` record, and `canvas.height` is `Env.canvasH`),
the keydown handler becomes `handleJump`, the start/restart handler
becomes `resetGame`, and the balance-ledger interactions (load from
storage, settle-on-game-over, withdraw button) become `loadBalance`,
`observeGameOver` and `withdrawClick`.  Floating point numbers are
modelled as rationals.
-/

/-- Hitbox size of the player (`PLAYER_SIZE`). -/
def PLAYER_SIZE : ℚ := 60

/-- Initial scroll speed (`INITIAL_GAME_SPEED`). -/
def INITIAL_GAME_SPEED : ℚ := 10

/-- Upward impulse applied on a jump (`JUMP_FORCE`). -/
def JUMP_FORCE : ℚ := -20

/-- Per-tick gravity increment (`GRAVITY = 1.2`). -/
def GRAVITY : ℚ := 6 / 5

/-- Maximum distance the enemy can fall behind (`MAX_ENEMY_DISTANCE`). -/
def MAX_ENEMY_DISTANCE : ℚ := 350

/-- Distance at which the enemy catches the player (`ENEMY_CATCH_DISTANCE`). -/
def ENEMY_CATCH_DISTANCE : ℚ := 30

/-- Per-tick recovery rate of the enemy distance (`ENEMY_RECOVERY_RATE`). -/
def ENEMY_RECOVERY_RATE : ℚ := 1

/-- Vertical offset of the ground line from the canvas bottom
(`PLAYER_GROUND_OFFSET`). -/
def PLAYER_GROUND_OFFSET : ℚ := 120

/-- Minimum balance required by the withdraw button
(`MIN_WITHDRAWAL_POINTS`). -/
def MIN_WITHDRAWAL_POINTS : ℤ := 1000

/-- Lookahead distance at which obstacles spawn (`spawnDistance` in `loop`). -/
def spawnDistance : ℚ := 1200

/-- Leniency padding used by the collision test (`hitboxPadding`). -/
def hitboxPadding : ℚ := 10

/-- The `state.player` sub-record of the mutable game state. -/
structure Player where
  worldX : ℚ
  y : ℚ
  vy : ℚ
  w : ℚ
  h : ℚ
  grounded : Bool
  lastCollisionTime : ℚ
  deriving DecidableEq, Repr

/-- One entry of `state.obstacles`. -/
structure Obstacle where
  x : ℚ
  y : ℚ
  w : ℚ
  h : ℚ
  collided : Bool
  deriving DecidableEq, Repr

/-- One entry of `state.particles`. -/
structure Particle where
  x : ℚ
  y : ℚ
  vx : ℚ
  vy : ℚ
  life : ℚ
  color : String
  deriving DecidableEq, Repr

/-- The whole `stateRef.current` record owned by the game loop.
The `enemy` sub-object has a single field, inlined here as
`enemyDistance`. -/
structure GameState where
  player : Player
  enemyDistance : ℚ
  obstacles : List Obstacle
  particles : List Particle
  gameSpeed : ℚ
  score : ℚ
  renderedScore : ℤ
  frameCount : ℕ
  isRunning : Bool
  deriving DecidableEq, Repr

/-- Per-tick environment: the canvas height read by the tick and the
results of the `Math.random()` draws the tick may consume.  `burst k i`
supplies the pair of velocity draws for particle `i` of the `k`-th
explosion created during the tick. -/
structure Env where
  canvasH : ℚ
  gapRand : ℚ
  chanceRand : ℚ
  burst : ℕ → ℕ → ℚ × ℚ

/-- The ten particles pushed by one `createExplosion(x, y, color)` call;
`rnd i` gives the two `Math.random()` draws of the `i`-th particle. -/
def newBurst (rnd : ℕ → ℚ × ℚ) (x y : ℚ) (color : String) : List Particle :=
  (List.range 10).map fun i =>
    { x := x, y := y
      vx := ((rnd i).1 - 1 / 2) * 10
      vy := ((rnd i).2 - 1 / 2) * 10
      life := 1, color := color }

/-- `createExplosion` appends ten particles to the particle list. -/
def createExplosion (rnd : ℕ → ℚ × ℚ) (x y : ℚ) (color : String)
    (ps : List Particle) : List Particle :=
  ps ++ newBurst rnd x y color

/-- Phase 1 (difficulty scaling): the game speed used by the rest of the
tick; bumped by `0.5` whenever `frameCount % 600 === 0`. -/
def phase1Speed (s : GameState) : ℚ :=
  if s.frameCount % 600 = 0 then s.gameSpeed + 1 / 2 else s.gameSpeed

/-- Phase 2 (world advance): `state.player.worldX += state.gameSpeed`. -/
def phase2WorldX (s : GameState) : ℚ :=
  s.player.worldX + phase1Speed s

/-- Phase 3 (player vertical physics): gravity, integration, and the
ground clamp against `canvas.height - PLAYER_GROUND_OFFSET`. -/
def phase3Player (env : Env) (s : GameState) : Player :=
  let vy := s.player.vy + GRAVITY
  let y := s.player.y + vy
  let groundY := env.canvasH - PLAYER_GROUND_OFFSET
  if y + s.player.h ≥ groundY then
    { s.player with worldX := phase2WorldX s, y := groundY - s.player.h,
                    vy := 0, grounded := true }
  else
    { s.player with worldX := phase2WorldX s, y := y, vy := vy,
                    grounded := false }

/-- Phase 4 (pursuer recovery): while below `MAX_ENEMY_DISTANCE` the
distance drifts back by `ENEMY_RECOVERY_RATE * 0.5` per tick. -/
def phase4Distance (s : GameState) : ℚ :=
  if s.enemyDistance < MAX_ENEMY_DISTANCE then
    s.enemyDistance + ENEMY_RECOVERY_RATE * (1 / 2)
  else s.enemyDistance

/-- Phase 5 (obstacle spawning): gap condition against the last obstacle,
then a `Math.random() < 0.02` bernoulli gate; the new obstacle sits
`spawnDistance` ahead of the player at fixed size `60 × 45`. -/
def phase5Obstacles (env : Env) (s : GameState) : List Obstacle :=
  let worldX := phase2WorldX s
  let gapOk : Bool :=
    match s.obstacles.getLast? with
    | none => true
    | some last => decide (worldX + spawnDistance - last.x > 600 + env.gapRand * 500)
  if gapOk ∧ env.chanceRand < 1 / 50 then
    s.obstacles ++
      [{ x := worldX + spawnDistance
         y := env.canvasH - PLAYER_GROUND_OFFSET - 45
         w := 60, h := 45, collided := false }]
  else s.obstacles

/-- Phase 6 (obstacle retention): once more than 20 obstacles exist the
front (oldest) one is shifted off. -/
def phase6Obstacles (env : Env) (s : GameState) : List Obstacle :=
  let obs := phase5Obstacles env s
  if obs.length > 20 then obs.tail else obs

/-- The AABB test of the collision phase, exactly as the source writes
it: the player box is used as-is while the obstacle box is padded inward
by `hitboxPadding` on each side. -/
def overlaps (p : Player) (o : Obstacle) : Bool :=
  decide (p.worldX < o.x + o.w - hitboxPadding) &&
  decide (p.worldX + p.w > o.x + hitboxPadding) &&
  decide (p.y < o.y + o.h - hitboxPadding) &&
  decide (p.y + p.h > o.y + hitboxPadding)

/-- Whether the collision branch fires for an obstacle: it must not have
collided before and must overlap the player. -/
def fired (p : Player) (o : Obstacle) : Bool :=
  !o.collided && overlaps p o

/-- Effect of the collision loop on a single obstacle record. -/
def triggerIf (p : Player) (o : Obstacle) : Obstacle :=
  if fired p o then { o with collided := true } else o

/-- Result of the collision loop over the obstacle array. -/
structure CollisionOut where
  obstacles : List Obstacle
  distance : ℚ
  running : Bool
  particles : List Particle
  nextBurst : ℕ
  deriving Repr

/-- The collision loop: for each not-yet-collided overlapping obstacle it
marks the obstacle, zeroes the enemy distance, stops the run and pushes
an explosion at the player's position. -/
def collisionPhase (b : ℕ → ℕ → ℚ × ℚ) (p : Player) :
    List Obstacle → ℚ → Bool → List Particle → ℕ → CollisionOut
  | [], d, r, parts, k => ⟨[], d, r, parts, k⟩
  | o :: rest, d, r, parts, k =>
    if fired p o then
      let parts2 := createExplosion (b k) p.worldX (p.y + PLAYER_SIZE / 2) "red" parts
      let out := collisionPhase b p rest 0 false parts2 (k + 1)
      { out with obstacles := { o with collided := true } :: out.obstacles }
    else
      let out := collisionPhase b p rest d r parts k
      { out with obstacles := o :: out.obstacles }

/-- The collision loop of a tick, fed with the outputs of phases 3–6. -/
def collisionOut (env : Env) (s : GameState) : CollisionOut :=
  collisionPhase env.burst (phase3Player env s) (phase6Obstacles env s)
    (phase4Distance s) s.isRunning s.particles 0

/-- Whether some obstacle makes the collision branch fire this tick. -/
def collisionFired (env : Env) (s : GameState) : Bool :=
  (phase6Obstacles env s).any (fired (phase3Player env s))

/-- Whether the standalone capture check (`enemy.distance <= 30`) fires
this tick; it reads the distance left by the collision loop. -/
def captureFired (env : Env) (s : GameState) : Bool :=
  decide ((collisionOut env s).distance ≤ ENEMY_CATCH_DISTANCE)

/-- Phase 9 particle update for one particle: move by its velocity and
lose `0.05` life. -/
def updateParticle (p : Particle) : Particle :=
  { p with x := p.x + p.vx, y := p.y + p.vy, life := p.life - 1 / 20 }

/-- Phase 9 (particle integration): the backwards splice loop of the
source is equivalent to updating every particle and keeping those with
positive remaining life, preserving order. -/
def particlePhase (ps : List Particle) : List Particle :=
  (ps.map updateParticle).filter fun p => decide (p.life > 0)

/-- One invocation of the `loop` callback.  If `isRunning` is false the
callback returns immediately; otherwise the phases run in source order:
difficulty, world advance, physics, pursuer recovery, spawning,
retention, collision, capture check, particle integration, score
accrual, frame count. -/
def step (env : Env) (s : GameState) : GameState :=
  if s.isRunning then
    let p := phase3Player env s
    let co := collisionOut env s
    let caught : Bool := decide (co.distance ≤ ENEMY_CATCH_DISTANCE)
    let running2 := if caught then false else co.running
    let parts2 :=
      if caught then
        createExplosion (env.burst co.nextBurst) p.worldX (p.y + PLAYER_SIZE / 2)
          "red" co.particles
      else co.particles
    let score2 := s.score + 1 / 10
    let ci : ℤ := ⌊score2⌋
    { player := p
      enemyDistance := co.distance
      obstacles := co.obstacles
      particles := particlePhase parts2
      gameSpeed := phase1Speed s
      score := score2
      renderedScore := if ci > s.renderedScore then ci else s.renderedScore
      frameCount := s.frameCount + 1
      isRunning := running2 }
  else s

/-- The `resetGame` handler: a freshly constructed state with the player
on the ground line, the enemy 300 behind, and everything else at its
initial constant. -/
def resetGame (canvasH : ℚ) : GameState :=
  { player :=
      { worldX := 0
        y := canvasH - PLAYER_GROUND_OFFSET - PLAYER_SIZE
        vy := 0
        w := PLAYER_SIZE
        h := PLAYER_SIZE
        grounded := true
        lastCollisionTime := 0 }
    enemyDistance := 300
    obstacles := []
    particles := []
    gameSpeed := INITIAL_GAME_SPEED
    score := 0
    renderedScore := 0
    frameCount := 0
    isRunning := true }

/-- The keydown handler's jump branch: honored only while grounded and
running, in which case it sets the fixed upward impulse and clears
`grounded`; otherwise the event leaves the state untouched. -/
def handleJump (s : GameState) : GameState :=
  if s.player.grounded ∧ s.isRunning then
    { s with player := { s.player with vy := JUMP_FORCE, grounded := false } }
  else s

/-- States reachable during a session: the freshly reset state, a loop
tick (whose two random draws lie in `[0, 1)`), or a jump input. -/
inductive Reachable : GameState → Prop
  | reset (canvasH : ℚ) : Reachable (resetGame canvasH)
  | tick (env : Env) (s : GameState) (hg0 : 0 ≤ env.gapRand)
      (hg1 : env.gapRand < 1) (hc0 : 0 ≤ env.chanceRand)
      (hc1 : env.chanceRand < 1) (hs : Reachable s) : Reachable (step env s)
  | jump (s : GameState) (hs : Reachable s) : Reachable (handleJump s)

/-- The obstacles array is strictly sorted by world-X. -/
def obstaclesSortedX (l : List Obstacle) : Prop :=
  List.Chain' (fun a b => a.x < b.x) l

/-- Model of JS `parseInt(s, 10)` restricted to radix 10: skip leading
whitespace, an optional sign, then the longest digit prefix; `none`
models the `NaN` result when no digit follows. -/
def digitPrefixVal (l : List Char) : Option ℕ :=
  let ds := l.takeWhile Char.isDigit
  if ds = [] then none
  else some (ds.foldl (fun a c => a * 10 + (c.toNat - 48)) 0)

/-- JS `parseInt(string, 10)`; `none` models `NaN`. -/
def jsParseInt10 (s : String) : Option ℤ :=
  let cs := s.data.dropWhile Char.isWhitespace
  if cs.head? = some '-' then (digitPrefixVal cs.tail).map fun n => -(n : ℤ)
  else if cs.head? = some '+' then (digitPrefixVal cs.tail).map fun n => (n : ℤ)
  else (digitPrefixVal cs).map fun n => (n : ℤ)

/-- The balance-loading effect on mount: the balance starts at `0`; a
truthy stored string is fed to `parseInt(stored, 10)` and the result —
including a possible `NaN`, modelled `none` — becomes the balance. -/
def loadBalance (stored : Option String) : Option ℤ :=
  match stored with
  | none => some 0
  | some s => if s = "" then some 0 else jsParseInt10 s

/-- The game-over overlay's `onAnimationStart` settlement: on a
`(balance, pointsAdded)` pair, if points were not yet added it credits
`Math.floor(score)` when positive and latches the guard. -/
def observeGameOver (score : ℚ) : ℤ × Bool → ℤ × Bool
  | (b, true) => (b, true)
  | (b, false) => (if 0 < ⌊score⌋ then b + ⌊score⌋ else b, true)

/-- The withdraw button click: with the balance at or above the minimum
it succeeds — balance cleared, success acknowledgment shown — and below
the minimum (the button is disabled) nothing changes.  The returned
boolean is the `withdrawSuccess` acknowledgment. -/
def withdrawClick (balance : ℤ) : ℤ × Bool :=
  if balance ≥ MIN_WITHDRAWAL_POINTS then (0, true) else (balance, false)

/-- The explosions pushed by the collision loop: one burst of ten per
firing obstacle, with the burst counter advancing per explosion. -/
def collisionBursts (b : ℕ → ℕ → ℚ × ℚ) (p : Player) :
    List Obstacle → ℕ → List Particle
  | [], _ => []
  | o :: rest, k =>
    if fired p o then
      newBurst (b k) p.worldX (p.y + PLAYER_SIZE / 2) "red" ++
        collisionBursts b p rest (k + 1)
    else collisionBursts b p rest k

theorem collisionPhase_obstacles (b : ℕ → ℕ → ℚ × ℚ) (p : Player) :
    ∀ (obs : List Obstacle) (d : ℚ) (r : Bool) (parts : List Particle) (k : ℕ),
      (collisionPhase b p obs d r parts k).obstacles = obs.map (triggerIf p)
  | [], d, r, parts, k => by simp [collisionPhase]
  | o :: rest, d, r, parts, k => by
    by_cases h : fired p o = true <;>
      simp [collisionPhase, h, triggerIf, collisionPhase_obstacles b p rest]

theorem collisionPhase_distance (b : ℕ → ℕ → ℚ × ℚ) (p : Player) :
    ∀ (obs : List Obstacle) (d : ℚ) (r : Bool) (parts : List Particle) (k : ℕ),
      (collisionPhase b p obs d r parts k).distance =
        if obs.any (fired p) then 0 else d
  | [], d, r, parts, k => by simp [collisionPhase]
  | o :: rest, d, r, parts, k => by
    by_cases h : fired p o = true <;>
      simp [collisionPhase, h, collisionPhase_distance b p rest]

theorem collisionPhase_running (b : ℕ → ℕ → ℚ × ℚ) (p : Player) :
    ∀ (obs : List Obstacle) (d : ℚ) (r : Bool) (parts : List Particle) (k : ℕ),
      (collisionPhase b p obs d r parts k).running =
        if obs.any (fired p) then false else r
  | [], d, r, parts, k => by simp [collisionPhase]
  | o :: rest, d, r, parts, k => by
    by_cases h : fired p o = true <;>
      simp [collisionPhase, h, collisionPhase_running b p rest]

theorem collisionPhase_particles (b : ℕ → ℕ → ℚ × ℚ) (p : Player) :
    ∀ (obs : List Obstacle) (d : ℚ) (r : Bool) (parts : List Particle) (k : ℕ),
      (collisionPhase b p obs d r parts k).particles =
        parts ++ collisionBursts b p obs k
  | [], d, r, parts, k => by simp [collisionPhase, collisionBursts]
  | o :: rest, d, r, parts, k => by
    by_cases h : fired p o = true <;>
      simp [collisionPhase, collisionBursts, h, createExplosion,
        collisionPhase_particles b p rest]

theorem collisionPhase_nextBurst (b : ℕ → ℕ → ℚ × ℚ) (p : Player) :
    ∀ (obs : List Obstacle) (d : ℚ) (r : Bool) (parts : List Particle) (k : ℕ),
      (collisionPhase b p obs d r parts k).nextBurst =
        k + obs.countP (fired p)
  | [], d, r, parts, k => by simp [collisionPhase]
  | o :: rest, d, r, parts, k => by
    by_cases h : fired p o = true
    all_goals simp [collisionPhase, h, List.countP_cons,
      collisionPhase_nextBurst b p rest]
    all_goals omega

theorem newBurst_length (rnd : ℕ → ℚ × ℚ) (x y : ℚ) (c : String) :
    (newBurst rnd x y c).length = 10 := by
  simp [newBurst]

theorem newBurst_life (rnd : ℕ → ℚ × ℚ) (x y : ℚ) (c : String) :
    ∀ q ∈ newBurst rnd x y c, q.life = 1 := by
  intro q hq
  simp only [newBurst, List.mem_map] at hq
  obtain ⟨i, _, rfl⟩ := hq
  rfl

theorem collisionBursts_length (b : ℕ → ℕ → ℚ × ℚ) (p : Player) :
    ∀ (obs : List Obstacle) (k : ℕ),
      (collisionBursts b p obs k).length = 10 * obs.countP (fired p)
  | [], k => by simp [collisionBursts]
  | o :: rest, k => by
    by_cases h : fired p o = true
    all_goals simp [collisionBursts, h, List.countP_cons, newBurst_length,
      collisionBursts_length b p rest]
    all_goals omega

theorem collisionBursts_life (b : ℕ → ℕ → ℚ × ℚ) (p : Player) :
    ∀ (obs : List Obstacle) (k : ℕ) (q : Particle),
      q ∈ collisionBursts b p obs k → q.life = 1
  | [], k, q => by simp [collisionBursts]
  | o :: rest, k, q => by
    by_cases h : fired p o = true
    · simp only [collisionBursts, h, if_true, List.mem_append]
      rintro (hq | hq)
      · exact newBurst_life _ _ _ _ q hq
      · exact collisionBursts_life b p rest (k + 1) q hq
    · simp only [collisionBursts, h, if_false, Bool.false_eq_true]
      exact collisionBursts_life b p rest k q

theorem collisionOut_distance (env : Env) (s : GameState) :
    (collisionOut env s).distance =
      if collisionFired env s then 0 else phase4Distance s := by
  simp [collisionOut, collisionFired, collisionPhase_distance]

theorem collisionOut_running (env : Env) (s : GameState) :
    (collisionOut env s).running =
      if collisionFired env s then false else s.isRunning := by
  simp [collisionOut, collisionFired, collisionPhase_running]

theorem collisionOut_obstacles (env : Env) (s : GameState) :
    (collisionOut env s).obstacles =
      (phase6Obstacles env s).map (triggerIf (phase3Player env s)) := by
  simp [collisionOut, collisionPhase_obstacles]

theorem collisionOut_particles (env : Env) (s : GameState) :
    (collisionOut env s).particles =
      s.particles ++
        collisionBursts env.burst (phase3Player env s) (phase6Obstacles env s) 0 := by
  simp [collisionOut, collisionPhase_particles]

theorem step_not_running (env : Env) (s : GameState)
    (h : s.isRunning = false) : step env s = s := by
  simp [step, h]

theorem step_player (env : Env) (s : GameState) (h : s.isRunning = true) :
    (step env s).player = phase3Player env s := by
  simp [step, h]

theorem step_gameSpeed (env : Env) (s : GameState) (h : s.isRunning = true) :
    (step env s).gameSpeed = phase1Speed s := by
  simp [step, h]

theorem step_enemyDistance (env : Env) (s : GameState) (h : s.isRunning = true) :
    (step env s).enemyDistance = (collisionOut env s).distance := by
  simp [step, h]

theorem step_obstacles (env : Env) (s : GameState) (h : s.isRunning = true) :
    (step env s).obstacles =
      (phase6Obstacles env s).map (triggerIf (phase3Player env s)) := by
  simp [step, h, collisionOut_obstacles]

theorem step_isRunning (env : Env) (s : GameState) (h : s.isRunning = true) :
    (step env s).isRunning =
      if (collisionOut env s).distance ≤ ENEMY_CATCH_DISTANCE then false
      else (collisionOut env s).running := by
  simp [step, h]

theorem step_particles (env : Env) (s : GameState) (h : s.isRunning = true) :
    (step env s).particles =
      particlePhase
        (if (collisionOut env s).distance ≤ ENEMY_CATCH_DISTANCE then
          createExplosion (env.burst (collisionOut env s).nextBurst)
            (phase3Player env s).worldX ((phase3Player env s).y + PLAYER_SIZE / 2)
            "red" (collisionOut env s).particles
        else (collisionOut env s).particles) := by
  simp [step, h]

theorem phase3Player_worldX (env : Env) (s : GameState) :
    (phase3Player env s).worldX = phase2WorldX s := by
  simp only [phase3Player]
  split <;> rfl

theorem particlePhase_append (a b : List Particle) :
    particlePhase (a ++ b) = particlePhase a ++ particlePhase b := by
  simp [particlePhase]

theorem particlePhase_length_of_life_one (l : List Particle)
    (h : ∀ q ∈ l, q.life = 1) : (particlePhase l).length = l.length := by
  unfold particlePhase
  rw [List.filter_eq_self.mpr, List.length_map]
  intro q hq
  obtain ⟨q0, hq0, rfl⟩ := List.mem_map.mp hq
  have hl : q0.life = 1 := h q0 hq0
  simp only [updateParticle, decide_eq_true_eq, hl]
  norm_num

/-- A fixed sample environment used to instantiate theorems at concrete
inputs. -/
def envW : Env :=
  { canvasH := 800, gapRand := 1 / 2, chanceRand := 1 / 2,
    burst := fun _ _ => (1 / 2, 1 / 2) }

/-- C1: for every tick executed while `running` is true, the player's
world position after the tick equals its value before the tick plus the
tick's game speed (the speed set by the difficulty phase, which is also
the post-tick `gameSpeed`); no other phase alters it. -/
theorem C1_world_advance (env : Env) (s : GameState) (h : s.isRunning = true) :
    (step env s).player.worldX = s.player.worldX + (step env s).gameSpeed := by
  rw [step_player env s h, step_gameSpeed env s h, phase3Player_worldX,
    phase2WorldX]

/-- Witness for C1 at the freshly reset state. -/
theorem C1_world_advance_witness :
    (step envW (resetGame 800)).player.worldX =
      (resetGame 800).player.worldX + (step envW (resetGame 800)).gameSpeed :=
  C1_world_advance envW (resetGame 800) rfl

/-- C2: invoking the step function while `running` is false is a
guaranteed no-op — the state, hence score, world position, game speed,
frame count, obstacles and particles, is returned unchanged, and no
obstacle is spawned. -/
theorem C2_step_noop (env : Env) (s : GameState) (h : s.isRunning = false) :
    step env s = s :=
  step_not_running env s h

/-- A terminal (not running) state used to instantiate C2. -/
def stoppedState : GameState :=
  { resetGame 800 with isRunning := false }

/-- Witness for C2 at a concrete stopped state. -/
theorem C2_step_noop_witness : step envW stoppedState = stoppedState :=
  C2_step_noop envW stoppedState rfl

/-- C6: a jump input is honored exactly when the session is running and
the player is grounded, in which case it sets the fixed impulse and
clears `grounded`; otherwise it is silently dropped with no state
change. -/
theorem C6_jump_gating (s : GameState) :
    (s.player.grounded = true → s.isRunning = true →
      handleJump s =
        { s with player := { s.player with vy := JUMP_FORCE, grounded := false } })
    ∧ (s.player.grounded = false ∨ s.isRunning = false → handleJump s = s) := by
  constructor
  · intro hg hr
    simp [handleJump, hg, hr]
  · rintro (h | h) <;> simp [handleJump, h]

/-- Witness for C6: at the reset state a jump applies the impulse. -/
theorem C6_jump_gating_witness :
    handleJump (resetGame 800) =
      { resetGame 800 with
          player := { (resetGame 800).player with
                        vy := JUMP_FORCE, grounded := false } } :=
  (C6_jump_gating (resetGame 800)).1 rfl rfl

/-- C7: the withdraw click succeeds exactly when the balance is at least
the fixed minimum (1000): on success the balance resets to 0 and the
success acknowledgment is surfaced; below the minimum nothing changes
and no acknowledgment appears. -/
theorem C7_withdraw (b : ℤ) :
    (MIN_WITHDRAWAL_POINTS ≤ b → withdrawClick b = (0, true))
    ∧ (b < MIN_WITHDRAWAL_POINTS → withdrawClick b = (b, false)) := by
  constructor
  · intro h
    simp [withdrawClick, h]
  · intro h
    rw [withdrawClick, if_neg (by omega)]

/-- Witness for C7 at balances 1000 and 999. -/
theorem C7_withdraw_witness :
    withdrawClick 1000 = (0, true) ∧ withdrawClick 999 = (999, false) :=
  ⟨(C7_withdraw 1000).1 (by norm_num [MIN_WITHDRAWAL_POINTS]),
   (C7_withdraw 999).2 (by norm_num [MIN_WITHDRAWAL_POINTS])⟩

theorem triggerIf_x (p : Player) (o : Obstacle) : (triggerIf p o).x = o.x := by
  unfold triggerIf
  split <;> rfl

theorem phase4_ge (s : GameState) : s.enemyDistance ≤ phase4Distance s := by
  unfold phase4Distance
  split
  · norm_num [ENEMY_RECOVERY_RATE]
  · exact le_refl _

theorem handleJump_obstacles (s : GameState) :
    (handleJump s).obstacles = s.obstacles := by
  unfold handleJump
  split <;> rfl

theorem handleJump_enemyDistance (s : GameState) :
    (handleJump s).enemyDistance = s.enemyDistance := by
  unfold handleJump
  split <;> rfl

theorem handleJump_isRunning (s : GameState) :
    (handleJump s).isRunning = s.isRunning := by
  unfold handleJump
  split <;> rfl

theorem sorted_map_triggerIf (p : Player) (l : List Obstacle)
    (h : obstaclesSortedX l) : obstaclesSortedX (l.map (triggerIf p)) := by
  unfold obstaclesSortedX at *
  rw [List.chain'_map]
  exact h.imp fun a b hab => by rw [triggerIf_x, triggerIf_x]; exact hab

theorem sorted_phase5 (env : Env) (s : GameState) (hg : 0 ≤ env.gapRand)
    (h : obstaclesSortedX s.obstacles) :
    obstaclesSortedX (phase5Obstacles env s) := by
  unfold obstaclesSortedX at *
  simp only [phase5Obstacles]
  split
  case isTrue hcond =>
    rw [List.chain'_append]
    refine ⟨h, List.chain'_singleton _, ?_⟩
    intro a ha b hb
    simp only [List.head?_cons, Option.mem_some_iff] at hb
    subst hb
    obtain ⟨hgap, -⟩ := hcond
    rw [ha] at hgap
    simp only [decide_eq_true_eq] at hgap
    have h500 : (0:ℚ) ≤ env.gapRand * 500 := by positivity
    simp only [spawnDistance] at hgap ⊢
    linarith
  case isFalse => exact h

theorem sorted_phase6 (env : Env) (s : GameState)
    (h : obstaclesSortedX (phase5Obstacles env s)) :
    obstaclesSortedX (phase6Obstacles env s) := by
  unfold obstaclesSortedX at *
  simp only [phase6Obstacles]
  split
  · exact h.tail
  · exact h

/-- Every reachable obstacle list is strictly sorted by world-X. -/
theorem reachable_sorted (s : GameState) (h : Reachable s) :
    obstaclesSortedX s.obstacles := by
  induction h with
  | reset canvasH => simp [resetGame, obstaclesSortedX]
  | tick env s hg0 hg1 hc0 hc1 hs ih =>
    by_cases hr : s.isRunning = true
    · rw [step_obstacles env s hr]
      exact sorted_map_triggerIf _ _ (sorted_phase6 env s (sorted_phase5 env s hg0 ih))
    · rw [step_not_running env s (by simpa using hr)]
      exact ih
  | jump s hs ih => rw [handleJump_obstacles]; exact ih

/-- C3: the obstacles sequence is sorted strictly ascending by world-X
in every state reachable during a session — each spawn appends an
obstacle strictly beyond the previous tail and eviction removes only the
front element, so every tick preserves sortedness. -/
theorem C3_obstacles_sorted (s : GameState) (h : Reachable s) :
    obstaclesSortedX s.obstacles :=
  reachable_sorted s h

/-- Witness for C3 at the freshly reset state. -/
theorem C3_obstacles_sorted_witness : obstaclesSortedX (resetGame 800).obstacles :=
  C3_obstacles_sorted (resetGame 800) (Reachable.reset 800)

/-- In every reachable state that is still running the pursuer distance
is at least its reset value 300. -/
theorem reachable_distance_lb (s : GameState) (h : Reachable s) :
    s.isRunning = true → 300 ≤ s.enemyDistance := by
  induction h with
  | reset canvasH =>
    intro _
    norm_num [resetGame]
  | tick env s hg0 hg1 hc0 hc1 hs ih =>
    intro hrun
    by_cases hr : s.isRunning = true
    · have hlb := ih hr
      have hrn := step_isRunning env s hr
      rw [hrun] at hrn
      have hcf : collisionFired env s = false := by
        cases hcb : collisionFired env s
        · rfl
        · exfalso
          rw [collisionOut_distance, if_pos hcb] at hrn
          rw [if_pos (by norm_num [ENEMY_CATCH_DISTANCE])] at hrn
          exact Bool.true_eq_false.mp hrn
      rw [step_enemyDistance env s hr, collisionOut_distance,
        if_neg (by simp [hcf])]
      exact le_trans hlb (phase4_ge s)
    · have hfalse : s.isRunning = false := by simpa using hr
      rw [step_not_running env s hfalse] at hrun
      rw [hrun] at hfalse
      exact absurd hfalse (by simp)
  | jump s hs ih =>
    intro hrun
    rw [handleJump_isRunning] at hrun
    rw [handleJump_enemyDistance]
    exact ih hrun

/-- C10: in every reachable running state the pursuer distance is at
least its reset value 300; the distance never decreases on a tick except
when the trap-collision branch fires, in which case it becomes 0 and the
run ends in that same tick; a jump input never changes it; and the
standalone capture check can fire only in a tick in which the collision
branch has already fired. -/
theorem C10_pursuer (s : GameState) (h : Reachable s)
    (hrun : s.isRunning = true) :
    300 ≤ s.enemyDistance
    ∧ (∀ env : Env, (step env s).enemyDistance < s.enemyDistance →
        collisionFired env s = true ∧ (step env s).enemyDistance = 0 ∧
          (step env s).isRunning = false)
    ∧ (∀ env : Env, captureFired env s = true → collisionFired env s = true)
    ∧ (handleJump s).enemyDistance = s.enemyDistance := by
  have hlb := reachable_distance_lb s h hrun
  refine ⟨hlb, ?_, ?_, handleJump_enemyDistance s⟩
  · intro env hdec
    rw [step_enemyDistance env s hrun, collisionOut_distance] at hdec
    by_cases hcf : collisionFired env s = true
    · refine ⟨hcf, ?_, ?_⟩
      · rw [step_enemyDistance env s hrun, collisionOut_distance, if_pos hcf]
      · rw [step_isRunning env s hrun, collisionOut_distance, if_pos hcf,
          if_pos (by norm_num [ENEMY_CATCH_DISTANCE])]
    · rw [if_neg hcf] at hdec
      exact absurd hdec (not_lt.mpr (phase4_ge s))
  · intro env hcap
    by_cases hcf : collisionFired env s = true
    · exact hcf
    · exfalso
      unfold captureFired at hcap
      rw [collisionOut_distance, if_neg hcf] at hcap
      simp only [decide_eq_true_eq, ENEMY_CATCH_DISTANCE] at hcap
      have := phase4_ge s
      linarith

/-- Witness for C10 at the freshly reset state. -/
theorem C10_pursuer_witness : (300:ℚ) ≤ (resetGame 800).enemyDistance :=
  (C10_pursuer (resetGame 800) (Reachable.reset 800) rfl).1

/-- The first tick after a reset (canvas height unchanged since the
reset): the difficulty phase fires at `frameCount = 0`, so the speed is
already `10.5` when the world advances, and the ground clamp zeroes the
vertical velocity again. -/
theorem step_after_reset (env : Env) :
    (step env (resetGame env.canvasH)).player.worldX = 21 / 2
    ∧ (step env (resetGame env.canvasH)).player.vy = 0
    ∧ (step env (resetGame env.canvasH)).player.grounded = true
    ∧ (step env (resetGame env.canvasH)).gameSpeed = 21 / 2 := by
  have hr : (resetGame env.canvasH).isRunning = true := rfl
  have hsp : phase1Speed (resetGame env.canvasH) = 21 / 2 := by
    norm_num [phase1Speed, resetGame, INITIAL_GAME_SPEED]
  have hwx : phase2WorldX (resetGame env.canvasH) = 21 / 2 := by
    rw [phase2WorldX, hsp]
    norm_num [resetGame]
  have hcond : (resetGame env.canvasH).player.y +
      ((resetGame env.canvasH).player.vy + GRAVITY) +
      (resetGame env.canvasH).player.h ≥ env.canvasH - PLAYER_GROUND_OFFSET := by
    simp only [resetGame, GRAVITY, PLAYER_GROUND_OFFSET, PLAYER_SIZE]
    linarith
  have h3 : phase3Player env (resetGame env.canvasH) =
      { worldX := 21 / 2,
        y := env.canvasH - PLAYER_GROUND_OFFSET - PLAYER_SIZE,
        vy := 0, w := PLAYER_SIZE, h := PLAYER_SIZE, grounded := true,
        lastCollisionTime := 0 } := by
    simp only [phase3Player]
    rw [if_pos hcond, hwx]
    simp [resetGame]
  refine ⟨?_, ?_, ?_, ?_⟩
  · rw [step_player env _ hr, h3]
  · rw [step_player env _ hr, h3]
  · rw [step_player env _ hr, h3]
  · rw [step_gameSpeed env _ hr, hsp]

/-- C5 counterexample: from the freshly reset state (`gameSpeed = 10`,
`worldPositionX = 0`) one tick with no input and no spawn yields
`worldPositionX = 10.5`, not `10`, and the vertical velocity is clamped
back to `0`, not increased by the gravity constant. -/
theorem C5_counterexample :
    ¬ ((step envW (resetGame envW.canvasH)).player.worldX = 10
        ∧ (step envW (resetGame envW.canvasH)).player.vy =
            (resetGame envW.canvasH).player.vy + GRAVITY) := by
  rintro ⟨h1, -⟩
  have h := (step_after_reset envW).1
  rw [h1] at h
  norm_num at h

/-- C5 amended: from the reset state, after exactly one tick the world
position is `10.5` (the difficulty bump fires at `frameCount = 0` before
the world advance, so the advance uses speed `10.5`), the vertical
velocity is `0` again (gravity is applied but the ground clamp zeroes
it), and the player remains grounded. -/
theorem C5_first_tick (env : Env) :
    (step env (resetGame env.canvasH)).player.worldX = 21 / 2
    ∧ (step env (resetGame env.canvasH)).player.vy = 0
    ∧ (step env (resetGame env.canvasH)).player.grounded = true
    ∧ (step env (resetGame env.canvasH)).gameSpeed = 21 / 2 :=
  step_after_reset env

/-- Generic axis-aligned bounding-box overlap of two rectangles given by
top-left corner and size. -/
def aabbOverlap (px py pw ph qx qy qw qh : ℚ) : Bool :=
  decide (px < qx + qw) && decide (px + pw > qx) &&
  decide (py < qy + qh) && decide (py + ph > qy)

/-- Follows the spec's words for the collision test: the overlap of the
player's hitbox and the obstacle's box with BOTH boxes shrunk inward by
the leniency padding on all sides. -/
def specBothPaddedOverlap (p : Player) (o : Obstacle) : Bool :=
  aabbOverlap (p.worldX + hitboxPadding) (p.y + hitboxPadding)
    (p.w - 2 * hitboxPadding) (p.h - 2 * hitboxPadding)
    (o.x + hitboxPadding) (o.y + hitboxPadding)
    (o.w - 2 * hitboxPadding) (o.h - 2 * hitboxPadding)

/-- A concrete player geometry for the C8 counterexample. -/
def cexPlayer : Player :=
  { worldX := 49, y := 600, vy := 0, w := 60, h := 60, grounded := true,
    lastCollisionTime := 0 }

/-- A concrete obstacle geometry for the C8 counterexample. -/
def cexObstacle : Obstacle :=
  { x := 0, y := 600, w := 60, h := 45, collided := false }

/-- C8 counterexample: the source's collision test fires on a player and
obstacle whose both-shrunk-inward boxes do not overlap, so the test is
not equivalent to the overlap of the two padded-inward rectangles. -/
theorem C8_counterexample :
    overlaps cexPlayer cexObstacle = true
    ∧ specBothPaddedOverlap cexPlayer cexObstacle = false := by
  constructor
  · simp only [overlaps, cexPlayer, cexObstacle, Bool.and_eq_true,
      decide_eq_true_eq, hitboxPadding]
    norm_num
  · simp only [specBothPaddedOverlap, aabbOverlap, cexPlayer, cexObstacle,
      hitboxPadding]
    norm_num

/-- C8 amended: the collision test is an AABB overlap test in which only
the obstacle's box is shrunk inward by the leniency padding on all sides
while the player's hitbox is used unshrunk (equivalently, both boxes
shrunk by half the padding). -/
theorem C8_padded_overlap (p : Player) (o : Obstacle) :
    overlaps p o =
      aabbOverlap p.worldX p.y p.w p.h (o.x + hitboxPadding)
        (o.y + hitboxPadding) (o.w - 2 * hitboxPadding)
        (o.h - 2 * hitboxPadding) := by
  unfold overlaps aabbOverlap
  have e1 : o.x + hitboxPadding + (o.w - 2 * hitboxPadding) =
      o.x + o.w - hitboxPadding := by ring
  have e2 : o.y + hitboxPadding + (o.h - 2 * hitboxPadding) =
      o.y + o.h - hitboxPadding := by ring
  rw [e1, e2]

theorem takeWhile_eq_nil_of_none (p : Char → Bool) (l : List Char)
    (h : ∀ c ∈ l, p c = false) : l.takeWhile p = [] := by
  cases l with
  | nil => rfl
  | cons a as =>
    rw [List.takeWhile_cons, if_neg (by simp [h a (List.mem_cons_self a as)])]

theorem mem_of_mem_dropWhile (p : Char → Bool) :
    ∀ (l : List Char) (c : Char), c ∈ l.dropWhile p → c ∈ l
  | [], c => by simp
  | a :: as, c => by
    rw [List.dropWhile_cons]
    split
    · intro h
      exact List.mem_cons_of_mem a (mem_of_mem_dropWhile p as c h)
    · exact fun h => h

theorem digitPrefixVal_none (l : List Char)
    (h : ∀ c ∈ l, c.isDigit = false) : digitPrefixVal l = none := by
  unfold digitPrefixVal
  rw [takeWhile_eq_nil_of_none _ _ h]
  rfl

/-- On a nonempty digit-free stored string, `parseInt(s, 10)` is `NaN`. -/
theorem jsParseInt10_no_digits (s : String)
    (h : ∀ c ∈ s.data, c.isDigit = false) : jsParseInt10 s = none := by
  have hd : ∀ c ∈ s.data.dropWhile Char.isWhitespace, c.isDigit = false :=
    fun c hc => h c (mem_of_mem_dropWhile _ _ c hc)
  have ht : ∀ c ∈ (s.data.dropWhile Char.isWhitespace).tail, c.isDigit = false :=
    fun c hc => hd c (List.mem_of_mem_tail hc)
  simp only [jsParseInt10]
  split
  · rw [digitPrefixVal_none _ ht]
    rfl
  · split
    · rw [digitPrefixVal_none _ ht]
      rfl
    · rw [digitPrefixVal_none _ hd]
      rfl

/-- C9 counterexample: the stored string `"abc"` does not encode a
base-10 integer, yet the loaded balance is `NaN` (modelled `none`), not
`0` — the corrupt value is not defaulted. -/
theorem C9_counterexample : ¬ loadBalance (some "abc") = some 0 := by
  have h : jsParseInt10 "abc" = none := by
    apply jsParseInt10_no_digits
    decide
  show ¬ (if ("abc" : String) = "" then some 0 else jsParseInt10 "abc") = some 0
  rw [if_neg (by decide), h]
  simp

/-- C9 amended: an absent or empty stored value loads as balance `0`,
but a nonempty stored string is handed to `parseInt(stored, 10)`
unchecked: if it carries no digit at all the balance becomes `NaN`
(modelled `none`) rather than `0`, so corrupt values are not recovered
to `0`. -/
theorem C9_load_balance :
    loadBalance none = some 0
    ∧ loadBalance (some "") = some 0
    ∧ (∀ s : String, ¬ s = "" → (∀ c ∈ s.data, c.isDigit = false) →
        loadBalance (some s) = none) := by
  refine ⟨rfl, rfl, ?_⟩
  intro s hne hnd
  show (if s = "" then some 0 else jsParseInt10 s) = none
  rw [if_neg hne]
  exact jsParseInt10_no_digits s hnd

/-- Witness for C9 amended: the digit-free stored string `"abc"` loads
as `NaN`. -/
theorem C9_load_balance_witness : loadBalance (some "abc") = none :=
  C9_load_balance.2.2 "abc" (by decide) (by decide)

/-- With a nonnegative final score, any positive number of renders of
the game-over overlay credits the balance exactly once. -/
theorem observeGameOver_iterate (sc : ℚ) (b : ℤ) (n : ℕ) (h : 0 ≤ sc) :
    (observeGameOver sc)^[n + 1] (b, false) = (b + ⌊sc⌋, true) := by
  have h0 : observeGameOver sc (b, false) = (b + ⌊sc⌋, true) := by
    show (if 0 < ⌊sc⌋ then b + ⌊sc⌋ else b, true) = (b + ⌊sc⌋, true)
    by_cases hf : 0 < ⌊sc⌋
    · rw [if_pos hf]
    · have hz : ⌊sc⌋ = 0 := le_antisymm (not_lt.mp hf) (Int.floor_nonneg.mpr h)
      rw [if_neg hf, hz, add_zero]
  have hfix : ∀ (m : ℕ) (x : ℤ), (observeGameOver sc)^[m] (x, true) = (x, true) := by
    intro m
    induction m with
    | zero => intro x; rfl
    | succ m ih =>
      intro x
      rw [Function.iterate_succ_apply]
      exact ih x
  rw [Function.iterate_succ_apply, h0]
  exact hfix n _

/-- Effects of a tick in which exactly one untriggered obstacle overlaps
the player: that obstacle is marked, the run ends, the enemy distance is
snapped to 0, and twenty particles are created (the collision branch's
burst of ten, then the capture check — seeing the zeroed distance —
fires a second burst of ten in the same tick). -/
theorem trap_hit_effects (env : Env) (s : GameState) (hrun : s.isRunning = true)
    (hone : (phase6Obstacles env s).countP (fired (phase3Player env s)) = 1) :
    (step env s).isRunning = false
    ∧ (step env s).enemyDistance = 0
    ∧ (step env s).obstacles =
        (phase6Obstacles env s).map (triggerIf (phase3Player env s))
    ∧ (step env s).particles.length = (particlePhase s.particles).length + 20 := by
  have hcf : collisionFired env s = true := by
    unfold collisionFired
    rw [List.any_eq_true]
    exact List.countP_pos_iff.mp (by omega)
  have hdist0 : (collisionOut env s).distance = 0 := by
    rw [collisionOut_distance, if_pos hcf]
  refine ⟨?_, ?_, step_obstacles env s hrun, ?_⟩
  · rw [step_isRunning env s hrun, hdist0,
      if_pos (by norm_num [ENEMY_CATCH_DISTANCE])]
  · rw [step_enemyDistance env s hrun, hdist0]
  · rw [step_particles env s hrun, hdist0,
      if_pos (by norm_num [ENEMY_CATCH_DISTANCE])]
    unfold createExplosion
    rw [collisionOut_particles, List.append_assoc, particlePhase_append,
      List.length_append]
    have hlife : ∀ q ∈ collisionBursts env.burst (phase3Player env s)
        (phase6Obstacles env s) 0 ++
          newBurst (env.burst (collisionOut env s).nextBurst)
            (phase3Player env s).worldX
            ((phase3Player env s).y + PLAYER_SIZE / 2) "red", q.life = 1 := by
      intro q hq
      rcases List.mem_append.mp hq with hq | hq
      · exact collisionBursts_life _ _ _ _ q hq
      · exact newBurst_life _ _ _ _ q hq
    rw [particlePhase_length_of_life_one _ hlife, List.length_append,
      collisionBursts_length, hone, newBurst_length]

/-- A concrete pre-collision state for C4: the player is about to land
on the single untriggered trap directly under it. -/
def s4 : GameState :=
  { player :=
      { worldX := 100, y := 620, vy := 0, w := 60, h := 60, grounded := true,
        lastCollisionTime := 0 }
    enemyDistance := 300
    obstacles := [{ x := 130, y := 635, w := 60, h := 45, collided := false }]
    particles := []
    gameSpeed := 10
    score := 0
    renderedScore := 0
    frameCount := 1
    isRunning := true }

theorem phase3Player_s4 :
    phase3Player envW s4 =
      { worldX := 110, y := 620, vy := 0, w := 60, h := 60, grounded := true,
        lastCollisionTime := 0 } := by
  have hcond : s4.player.y + (s4.player.vy + GRAVITY) + s4.player.h ≥
      envW.canvasH - PLAYER_GROUND_OFFSET := by
    norm_num [s4, envW, GRAVITY, PLAYER_GROUND_OFFSET]
  simp only [phase3Player]
  rw [if_pos hcond]
  simp [s4, envW, phase2WorldX, phase1Speed, PLAYER_GROUND_OFFSET]
  norm_num

theorem phase6Obstacles_s4 : phase6Obstacles envW s4 = s4.obstacles := by
  have h5 : phase5Obstacles envW s4 = s4.obstacles := by
    simp only [phase5Obstacles]
    rw [if_neg]
    rintro ⟨-, hlt⟩
    norm_num [envW] at hlt
  simp only [phase6Obstacles]
  rw [h5, if_neg (by simp [s4])]

theorem countP_s4 :
    (phase6Obstacles envW s4).countP (fired (phase3Player envW s4)) = 1 := by
  rw [phase6Obstacles_s4, phase3Player_s4]
  have hf : fired
      { worldX := 110, y := 620, vy := 0, w := 60, h := 60, grounded := true,
        lastCollisionTime := 0 }
      { x := 130, y := 635, w := 60, h := 45, collided := false } = true := by
    simp only [fired, overlaps, hitboxPadding, Bool.and_eq_true,
      decide_eq_true_eq, Bool.not_false]
    norm_num
  simp [s4, List.countP_cons, hf]

/-- C4 counterexample: in the concrete trap-hit tick from `s4` the run
ends and the obstacle triggers, but twenty particles are created — the
collision burst of ten plus a second burst of ten from the capture check
that sees the zeroed distance — so the tick does not create a burst of
exactly ten particles. -/
theorem C4_counterexample :
    (step envW s4).isRunning = false
    ∧ (step envW s4).particles.length = 20
    ∧ ¬ (step envW s4).particles.length = 10 := by
  obtain ⟨h1, h2, h3, h4⟩ := trap_hit_effects envW s4 rfl countP_s4
  have hlen : (step envW s4).particles.length = 20 := by
    rw [h4]
    simp [s4, particlePhase]
  exact ⟨h1, hlen, by rw [hlen]; norm_num⟩

/-- C4 amended: when the player overlaps the single untriggered trap of
a tick, the obstacle's `collided` flag flips true, `running` flips
false, the enemy distance snaps to 0, and 20 particles (two bursts of
10: the collision branch's burst plus the capture check's burst in the
same tick) are created at the player's position; observing the final
score credits `settle(score)` to the balance exactly once however many
times the terminal UI state is rendered. -/
theorem C4_trap_hit (env : Env) (s : GameState) (hrun : s.isRunning = true)
    (hone : (phase6Obstacles env s).countP (fired (phase3Player env s)) = 1) :
    (step env s).isRunning = false
    ∧ (step env s).enemyDistance = 0
    ∧ (step env s).obstacles =
        (phase6Obstacles env s).map (triggerIf (phase3Player env s))
    ∧ (step env s).particles.length = (particlePhase s.particles).length + 20
    ∧ (∀ (sc : ℚ) (b : ℤ) (n : ℕ), 0 ≤ sc →
        (observeGameOver sc)^[n + 1] (b, false) = (b + ⌊sc⌋, true)) := by
  obtain ⟨h1, h2, h3, h4⟩ := trap_hit_effects env s hrun hone
  exact ⟨h1, h2, h3, h4, fun sc b n h => observeGameOver_iterate sc b n h⟩

/-- Witness for C4 amended at the concrete trap-hit state. -/
theorem C4_trap_hit_witness :
    (step envW s4).isRunning = false ∧ (step envW s4).enemyDistance = 0 :=
  ⟨(C4_trap_hit envW s4 rfl countP_s4).1, (C4_trap_hit envW s4 rfl countP_s4).2.1⟩
